import Mathlib

/-!
Shallow embedding of `src/security-framework/src/secure_transport.rs`.

The crate drives Apple's opaque Secure Transport engine (`SSLHandshake`,
`SSLRead`, `SSLWrite`, ...) over a caller-supplied transport. Every call
into the native engine is modelled by passing the engine's answer
(a status code, and where relevant an output value) as an explicit
argument; the Rust-side logic that dispatches on those answers is
translated directly. Machine integers (`OSStatus` is an `i32`) are
modelled as `Int`; the code never does arithmetic on them, only
comparison, so no wrap-around modelling is needed.
-/

/-- `OSStatus`, the engine's status-code type (`i32` in the source). -/
abbrev OSStatus := Int

/-- `errSecSuccess` from `security_framework_sys::base`. -/
def errSecSuccess : OSStatus := 0

/-- `errSecIO` from `security_framework_sys::base`. -/
def errSecIO : OSStatus := -36

/-- `errSecBadReq` from `security_framework_sys::base`. -/
def errSecBadReq : OSStatus := -909

/-- `errSSLWouldBlock` from `security_framework_sys::secure_transport`. -/
def errSSLWouldBlock : OSStatus := -9803

/-- `errSSLClosedGraceful`. -/
def errSSLClosedGraceful : OSStatus := -9805

/-- `errSSLClosedAbort`. -/
def errSSLClosedAbort : OSStatus := -9806

/-- `errSSLClosedNoNotify`. -/
def errSSLClosedNoNotify : OSStatus := -9816

/-- `errSSLPeerAuthCompleted`. -/
def errSSLPeerAuthCompleted : OSStatus := -9841

/-- `errSSLClientCertRequested`. -/
def errSSLClientCertRequested : OSStatus := -9842

/-- `base::Error`: an engine-reported error wrapping an `OSStatus`
(`Error::new(code)` in the source). -/
structure SfError where
  code : OSStatus
deriving DecidableEq, Repr

/-- `Error::new` (the source's `ErrorNew` constructor). -/
def SfError.new (code : OSStatus) : SfError := ⟨code⟩

/-- `std::io::ErrorKind`: the transport's error taxonomy. The source
matches three kinds by name and treats every other kind uniformly, so
the remaining kinds are listed explicitly here. -/
inductive IoErrorKind where
  | NotFound
  | ConnectionReset
  | WouldBlock
  | PermissionDenied
  | BrokenPipe
  | TimedOut
  | Interrupted
  | UnexpectedEof
  | Other
deriving DecidableEq, Repr

/-- A transport-level `std::io::Error`: its kind plus a tag standing for
the rest of the error value (message, payload), so that preserving the
original error value is observable. -/
structure TransportError where
  kind : IoErrorKind
  tag : Nat
deriving DecidableEq, Repr

/-- The `std::io::Error` values `SslStream` hands back to the caller:
either a captured transport error returned verbatim, or
`io::Error::new(Other, Error::new(ret))` wrapping an engine status. -/
inductive CallerIoError where
  | transport (e : TransportError)
  | generic (e : SfError)
deriving DecidableEq, Repr

/-- `Connection<S>` (lines 398–401): the state the bridge keeps next to
the owned transport — at most one captured I/O error. The transport
itself is modelled separately (as the sequence of its read/write
results), so only the error slot appears here. -/
structure Connection where
  err : Option TransportError
deriving DecidableEq, Repr

/-- `SessionState` (lines 79–86). -/
inductive SessionState where
  | Idle
  | Handshake
  | Connected
  | Closed
  | Aborted
deriving DecidableEq, Repr

/-- `SslContext` (line 116): an opaque engine handle. Only its identity
matters to the embedded logic. -/
structure SslContext where
  handle : Nat
deriving DecidableEq, Repr

/-- `SslStream<S>` (lines 470–473): a context plus phantom transport
type; the transport value lives behind the engine's connection pointer
and is modelled separately. -/
structure SslStream (S : Type) where
  ctx : SslContext
deriving DecidableEq, Repr

/-- `MidHandshakeSslStream<S>` (line 47): a suspended handshake wrapping
the same stream. -/
structure MidHandshakeSslStream (S : Type) where
  inner : SslStream S
deriving DecidableEq, Repr

/-- `HandshakeError<S>` (lines 38–44). -/
inductive HandshakeError (S : Type) where
  | Failure (e : SfError)
  | ServerAuthCompleted (s : MidHandshakeSslStream S)
  | ClientCertRequested (s : MidHandshakeSslStream S)
  | WouldBlock (s : MidHandshakeSslStream S)
deriving DecidableEq, Repr

/-- `MidHandshakeSslStream::handshake` (lines 66–77): dispatch on the
status `SSLHandshake` returned, passed in as `ret`. -/
def MidHandshakeSslStream.handshake {S : Type} (s : MidHandshakeSslStream S)
    (ret : OSStatus) : Except (HandshakeError S) (SslStream S) :=
  if ret = errSecSuccess then .ok s.inner
  else if ret = errSSLPeerAuthCompleted then .error (.ServerAuthCompleted s)
  else if ret = errSSLClientCertRequested then .error (.ClientCertRequested s)
  else if ret = errSSLWouldBlock then .error (.WouldBlock s)
  else .error (.Failure (SfError.new ret))

/-- `SslContext::handshake` (lines 308–345): `retSetIOFuncs` and
`retSetConnection` are the statuses of `SSLSetIOFuncs` and
`SSLSetConnection`, `retHandshake` the status of `SSLHandshake`.
The transport value `S` is moved into the connection box; what the
caller gets back is dispatched exactly as in the source. -/
def SslContext.handshake {S : Type} (ctx : SslContext)
    (retSetIOFuncs retSetConnection retHandshake : OSStatus) :
    Except (HandshakeError S) (SslStream S) :=
  if retSetIOFuncs ≠ errSecSuccess then
    .error (.Failure (SfError.new retSetIOFuncs))
  else if retSetConnection ≠ errSecSuccess then
    .error (.Failure (SfError.new retSetConnection))
  else
    let stream : SslStream S := ⟨ctx⟩
    if retHandshake = errSecSuccess then .ok stream
    else if retHandshake = errSSLPeerAuthCompleted then
      .error (.ServerAuthCompleted ⟨stream⟩)
    else if retHandshake = errSSLClientCertRequested then
      .error (.ClientCertRequested ⟨stream⟩)
    else if retHandshake = errSSLWouldBlock then
      .error (.WouldBlock ⟨stream⟩)
    else .error (.Failure (SfError.new retHandshake))

/-- C1: with the connection bound (both setup calls succeeded),
`SslContext::handshake`'s outcome — and `MidHandshakeSslStream::handshake`'s
outcome unconditionally — is the five-way dispatch on the engine's step
status: success ↦ ready stream, peer-auth-completed ↦ `ServerAuthCompleted`,
client-cert-requested ↦ `ClientCertRequested`, would-block ↦ `WouldBlock`,
and every other status ↦ `Failure` wrapping that status. -/
theorem handshake_five_way_dispatch {S : Type} (ctx : SslContext)
    (m : MidHandshakeSslStream S) (ret : OSStatus) :
    ((ret = errSecSuccess →
        SslContext.handshake (S := S) ctx errSecSuccess errSecSuccess ret
          = .ok ⟨ctx⟩ ∧
        m.handshake ret = .ok m.inner) ∧
     (ret = errSSLPeerAuthCompleted →
        SslContext.handshake (S := S) ctx errSecSuccess errSecSuccess ret
          = .error (.ServerAuthCompleted ⟨⟨ctx⟩⟩) ∧
        m.handshake ret = .error (.ServerAuthCompleted m)) ∧
     (ret = errSSLClientCertRequested →
        SslContext.handshake (S := S) ctx errSecSuccess errSecSuccess ret
          = .error (.ClientCertRequested ⟨⟨ctx⟩⟩) ∧
        m.handshake ret = .error (.ClientCertRequested m)) ∧
     (ret = errSSLWouldBlock →
        SslContext.handshake (S := S) ctx errSecSuccess errSecSuccess ret
          = .error (.WouldBlock ⟨⟨ctx⟩⟩) ∧
        m.handshake ret = .error (.WouldBlock m)) ∧
     (ret ≠ errSecSuccess → ret ≠ errSSLPeerAuthCompleted →
      ret ≠ errSSLClientCertRequested → ret ≠ errSSLWouldBlock →
        SslContext.handshake (S := S) ctx errSecSuccess errSecSuccess ret
          = .error (.Failure (SfError.new ret)) ∧
        m.handshake ret = .error (.Failure (SfError.new ret)))) := by
  refine ⟨?_, ?_, ?_, ?_, ?_⟩ <;> intros <;>
    simp_all [SslContext.handshake, MidHandshakeSslStream.handshake,
      errSecSuccess, errSSLPeerAuthCompleted, errSSLClientCertRequested,
      errSSLWouldBlock]

/-- Witness for C1: the dispatch evaluated at concrete statuses. -/
theorem handshake_five_way_dispatch_witness :
    (SslContext.handshake (S := Unit) ⟨0⟩ errSecSuccess errSecSuccess
        errSecSuccess = .ok ⟨⟨0⟩⟩) ∧
    (SslContext.handshake (S := Unit) ⟨0⟩ errSecSuccess errSecSuccess
        (-9800) = .error (.Failure (SfError.new (-9800)))) :=
  by
  constructor
  · exact ((handshake_five_way_dispatch ⟨0⟩ ⟨⟨⟨0⟩⟩⟩ errSecSuccess).1 rfl).1
  · exact ((handshake_five_way_dispatch (S := Unit) ⟨0⟩ ⟨⟨⟨0⟩⟩⟩
      (-9800)).2.2.2.2 (by decide) (by decide) (by decide) (by decide)).1

/-- `SslStream::get_error` (lines 530–537): `conn.err.take()` if a
transport error is pending (leaving the slot empty), else a fresh
`io::Error` wrapping `Error::new(ret)`. Returns the updated connection
state alongside the error value. -/
def SslStream.get_error (conn : Connection) (ret : OSStatus) :
    Connection × CallerIoError :=
  match conn.err with
  | some e => (⟨none⟩, .transport e)
  | none => (conn, .generic (SfError.new ret))

/-- `<SslStream as Read>::read` (lines 540–557): dispatch on the status
`ret` and byte count `nread` that `SSLRead` produced. -/
def SslStream.read (conn : Connection) (ret : OSStatus) (nread : Nat) :
    Connection × Except CallerIoError Nat :=
  if ret = errSecSuccess then (conn, .ok nread)
  else if ret = errSSLClosedGraceful ∨ ret = errSSLClosedAbort ∨
      ret = errSSLClosedNoNotify then (conn, .ok 0)
  else
    let ge := SslStream.get_error conn ret
    (ge.1, .error ge.2)

/-- `<SslStream as Write>::write` (lines 559–578): dispatch on the status
`ret` and byte count `nwritten` that `SSLWrite` produced. -/
def SslStream.write (conn : Connection) (ret : OSStatus) (nwritten : Nat) :
    Connection × Except CallerIoError Nat :=
  if ret = errSecSuccess then (conn, .ok nwritten)
  else
    let ge := SslStream.get_error conn ret
    (ge.1, .error ge.2)

/-- C2: `read` returns `Ok 0` on each of the three close statuses,
`Ok nread` on success, and an error exactly for every other status. -/
theorem read_close_collapses_to_eof (conn : Connection) (ret : OSStatus)
    (nread : Nat) :
    ((ret = errSecSuccess → (SslStream.read conn ret nread).2 = .ok nread) ∧
     (ret = errSSLClosedGraceful ∨ ret = errSSLClosedAbort ∨
        ret = errSSLClosedNoNotify →
          (SslStream.read conn ret nread).2 = .ok 0) ∧
     ((∃ e, (SslStream.read conn ret nread).2 = .error e) ↔
        ret ≠ errSecSuccess ∧ ret ≠ errSSLClosedGraceful ∧
        ret ≠ errSSLClosedAbort ∧ ret ≠ errSSLClosedNoNotify)) := by
  unfold SslStream.read
  refine ⟨?_, ?_, ?_⟩
  · intro h
    simp [h]
  · intro h
    rcases h with h | h | h <;>
      simp [h, errSecSuccess, errSSLClosedGraceful, errSSLClosedAbort,
        errSSLClosedNoNotify]
  · constructor
    · rintro ⟨e, he⟩
      by_contra hc
      simp only [not_and_or, not_not] at hc
      rcases hc with h | h | h | h <;> simp [h, errSecSuccess,
        errSSLClosedGraceful, errSSLClosedAbort, errSSLClosedNoNotify] at he
    · rintro ⟨h1, h2, h3, h4⟩
      simp [h1, h2, h3, h4]

/-- Witness for C2: a graceful close becomes a successful zero read. -/
theorem read_close_collapses_to_eof_witness :
    (SslStream.read ⟨none⟩ errSSLClosedGraceful 5).2 = .ok 0 :=
  (read_close_collapses_to_eof ⟨none⟩ errSSLClosedGraceful 5).2.1
    (Or.inl rfl)

/-- Counterexample to C3: on the graceful-close status, `write` returns
an error (the generic engine error when nothing is captured), not the
successful zero result `read` produces there. -/
theorem write_close_not_ok_zero :
    (SslStream.write ⟨none⟩ errSSLClosedGraceful 0).2
        = .error (.generic (SfError.new errSSLClosedGraceful)) ∧
    (SslStream.write ⟨none⟩ errSSLClosedGraceful 0).2 ≠ .ok 0 := by
  constructor <;>
    simp [SslStream.write, SslStream.get_error, errSecSuccess,
      errSSLClosedGraceful]

/-- C3 (amended): `write` returns `Ok nwritten` on engine success and an
error on every non-success status, including the three close statuses;
the error value is selected by the same rule as `read`'s error path
(`get_error`: captured transport error preferred, else generic), and on
the statuses where `read` also errors, `write` returns the identical
error and leaves the connection in the identical state. -/
theorem write_error_selection_mirrors_read (conn : Connection)
    (ret : OSStatus) (n : Nat) :
    ((ret = errSecSuccess →
        SslStream.write conn ret n = (conn, .ok n)) ∧
     (ret ≠ errSecSuccess →
        SslStream.write conn ret n
          = ((SslStream.get_error conn ret).1,
             .error (SslStream.get_error conn ret).2)) ∧
     (ret ≠ errSecSuccess → ret ≠ errSSLClosedGraceful →
      ret ≠ errSSLClosedAbort → ret ≠ errSSLClosedNoNotify →
        SslStream.write conn ret n = SslStream.read conn ret n)) := by
  refine ⟨?_, ?_, ?_⟩
  · intro h
    simp [SslStream.write, h]
  · intro h
    simp [SslStream.write, h]
  · intro h1 h2 h3 h4
    simp [SslStream.write, SslStream.read, h1, h2, h3, h4]

/-- Witness for C3 (amended): evaluated at a protocol-error status with a
pending captured error, and at success. -/
theorem write_error_selection_mirrors_read_witness :
    (SslStream.write ⟨some ⟨.TimedOut, 3⟩⟩ (-9800) 0
        = (⟨none⟩, .error (.transport ⟨.TimedOut, 3⟩))) ∧
    (SslStream.write ⟨none⟩ errSecSuccess 7 = (⟨none⟩, .ok 7)) := by
  constructor
  · exact (write_error_selection_mirrors_read ⟨some ⟨.TimedOut, 3⟩⟩
      (-9800) 0).2.1 (by decide)
  · exact (write_error_selection_mirrors_read ⟨none⟩ errSecSuccess 7).1 rfl

/-- C6: when `read` or `write` fails, a pending captured transport error
is returned verbatim; only with no pending capture is the generic error
wrapping the engine status returned. -/
theorem captured_error_takes_precedence (e : TransportError)
    (ret : OSStatus) (n : Nat)
    (hs : ret ≠ errSecSuccess) (hg : ret ≠ errSSLClosedGraceful)
    (ha : ret ≠ errSSLClosedAbort) (hn : ret ≠ errSSLClosedNoNotify) :
    ((SslStream.read ⟨some e⟩ ret n).2 = .error (.transport e) ∧
     (SslStream.write ⟨some e⟩ ret n).2 = .error (.transport e) ∧
     (SslStream.read ⟨none⟩ ret n).2 = .error (.generic (SfError.new ret)) ∧
     (SslStream.write ⟨none⟩ ret n).2
        = .error (.generic (SfError.new ret))) := by
  refine ⟨?_, ?_, ?_, ?_⟩ <;>
    simp [SslStream.read, SslStream.write, SslStream.get_error,
      hs, hg, ha, hn]

/-- Witness for C6: evaluated at a protocol-error status. -/
theorem captured_error_takes_precedence_witness :
    (SslStream.read ⟨some ⟨.BrokenPipe, 9⟩⟩ (-9800) 4).2
      = .error (.transport ⟨.BrokenPipe, 9⟩) :=
  (captured_error_takes_precedence ⟨.BrokenPipe, 9⟩ (-9800) 4
    (by decide) (by decide) (by decide) (by decide)).1

/-- C10: `get_error` removes the pending error when it returns it, so a
captured transport error is surfaced at most once: a first failing read
with a pending capture returns the transport error and empties the slot,
and a second failing read (with nothing newly captured) returns the
generic error wrapping the second call's status. -/
theorem captured_error_surfaced_once (e : TransportError)
    (ret1 ret2 : OSStatus) (n1 n2 : Nat)
    (hs1 : ret1 ≠ errSecSuccess) (hg1 : ret1 ≠ errSSLClosedGraceful)
    (ha1 : ret1 ≠ errSSLClosedAbort) (hn1 : ret1 ≠ errSSLClosedNoNotify)
    (hs2 : ret2 ≠ errSecSuccess) (hg2 : ret2 ≠ errSSLClosedGraceful)
    (ha2 : ret2 ≠ errSSLClosedAbort) (hn2 : ret2 ≠ errSSLClosedNoNotify) :
    (SslStream.read ⟨some e⟩ ret1 n1
        = (⟨none⟩, .error (.transport e)) ∧
     (SslStream.read (SslStream.read ⟨some e⟩ ret1 n1).1 ret2 n2).2
        = .error (.generic (SfError.new ret2))) := by
  have h1 : SslStream.read ⟨some e⟩ ret1 n1
      = (⟨none⟩, .error (.transport e)) := by
    simp [SslStream.read, SslStream.get_error, hs1, hg1, ha1, hn1]
  refine ⟨h1, ?_⟩
  rw [h1]
  simp [SslStream.read, SslStream.get_error, hs2, hg2, ha2, hn2]

/-- Witness for C10: two failing reads in a row surface the captured
error once, then the generic error. -/
theorem captured_error_surfaced_once_witness :
    (SslStream.read (SslStream.read ⟨some ⟨.Other, 1⟩⟩ (-9800) 0).1
        (-9801) 0).2 = .error (.generic (SfError.new (-9801))) :=
  (captured_error_surfaced_once ⟨.Other, 1⟩ (-9800) (-9801) 0 0
    (by decide) (by decide) (by decide) (by decide)
    (by decide) (by decide) (by decide) (by decide)).2

/-- The result of one transport `read`/`write` call: `Ok(n)` bytes moved
or an I/O error. A transport is modelled as the sequence of its call
results, indexed by call number. -/
inductive IoOutcome where
  | ok (n : Nat)
  | err (e : TransportError)
deriving DecidableEq, Repr

/-- `translate_err` (lines 405–412): the coarse status code reported to
the engine for a transport error, dispatching on `e.kind()`. -/
def translate_err (e : TransportError) : OSStatus :=
  match e.kind with
  | .NotFound => errSSLClosedGraceful
  | .ConnectionReset => errSSLClosedAbort
  | .WouldBlock => errSSLWouldBlock
  | _ => errSecIO

/-- The `while start < data.len()` loop of `read_func` (lines 423–436):
`stream i` is the result of the transport's `i`-th `read` call, `idx`
the next call number, `start` the bytes moved so far. Returns the final
`start`, the status `ret` (initialised to 0 = `errSecSuccess`), and the
error captured into `conn.err`, if any. -/
def read_func_loop (stream : Nat → IoOutcome) (dataLen idx start : Nat) :
    Nat × OSStatus × Option TransportError :=
  if _h : start < dataLen then
    match stream idx with
    | .ok 0 => (start, errSSLClosedNoNotify, none)
    | .ok (n + 1) => read_func_loop stream dataLen (idx + 1) (start + (n + 1))
    | .err e => (start, translate_err e, some e)
  else (start, errSecSuccess, none)
termination_by dataLen - start
decreasing_by omega

/-- `read_func` (lines 414–440): runs the loop, stores a captured error
into `conn.err`, writes the moved-byte count out through `*data_length`,
and returns the status. Result: (connection, bytes reported, status). -/
def read_func (stream : Nat → IoOutcome) (conn : Connection)
    (dataLen : Nat) : Connection × Nat × OSStatus :=
  let r := read_func_loop stream dataLen 0 0
  (match r.2.2 with
   | some e => ⟨some e⟩
   | none => conn, r.1, r.2.1)

/-- The `while start < data.len()` loop of `write_func` (lines 451–464):
identical in structure to `read_func`'s loop, over the transport's
`write` results. -/
def write_func_loop (stream : Nat → IoOutcome) (dataLen idx start : Nat) :
    Nat × OSStatus × Option TransportError :=
  if _h : start < dataLen then
    match stream idx with
    | .ok 0 => (start, errSSLClosedNoNotify, none)
    | .ok (n + 1) => write_func_loop stream dataLen (idx + 1) (start + (n + 1))
    | .err e => (start, translate_err e, some e)
  else (start, errSecSuccess, none)
termination_by dataLen - start
decreasing_by omega

/-- `write_func` (lines 442–468). -/
def write_func (stream : Nat → IoOutcome) (conn : Connection)
    (dataLen : Nat) : Connection × Nat × OSStatus :=
  let r := write_func_loop stream dataLen 0 0
  (match r.2.2 with
   | some e => ⟨some e⟩
   | none => conn, r.1, r.2.1)

/-- Bytes the transport moved over calls `idx, idx+1, ..., idx+k-1`
(errors contribute zero). -/
def bytesMoved (stream : Nat → IoOutcome) (idx : Nat) : Nat → Nat
  | 0 => 0
  | k + 1 =>
    (match stream idx with | .ok n => n | .err _ => 0)
      + bytesMoved stream (idx + 1) k

lemma bytesMoved_succ_ok (stream : Nat → IoOutcome) (idx k m : Nat)
    (h : stream idx = .ok m) :
    bytesMoved stream idx (k + 1) = m + bytesMoved stream (idx + 1) k := by
  simp [bytesMoved, h]

lemma write_func_loop_eq_read_func_loop (stream : Nat → IoOutcome)
    (dataLen : Nat) :
    ∀ fuel idx start, dataLen - start ≤ fuel →
      write_func_loop stream dataLen idx start
        = read_func_loop stream dataLen idx start := by
  intro fuel
  induction fuel with
  | zero =>
    intro idx start hf
    rw [write_func_loop, read_func_loop]
    have : ¬ start < dataLen := by omega
    simp [this]
  | succ fuel ih =>
    intro idx start hf
    rw [write_func_loop, read_func_loop]
    by_cases h : start < dataLen
    · simp only [h, dif_pos]
      cases hs : stream idx with
      | ok n =>
        cases n with
        | zero => rfl
        | succ m => exact ih (idx + 1) (start + (m + 1)) (by omega)
      | err e => rfl
    · simp [h]

/-- Running the loop through `k` productive calls (each a positive `Ok`,
each entered with the buffer not yet full) advances it to call `idx+k`
with `bytesMoved` added to `start`. -/
lemma read_func_loop_run (stream : Nat → IoOutcome) (dataLen : Nat) :
    ∀ k idx start,
      (∀ j < k, start + bytesMoved stream idx j < dataLen ∧
        ∃ n, stream (idx + j) = .ok (n + 1)) →
      read_func_loop stream dataLen idx start
        = read_func_loop stream dataLen (idx + k)
            (start + bytesMoved stream idx k) := by
  intro k
  induction k with
  | zero =>
    intro idx start _
    simp [bytesMoved]
  | succ k ih =>
    intro idx start hstep
    obtain ⟨hlt0, n, hok⟩ := hstep 0 (Nat.succ_pos k)
    rw [Nat.add_zero] at hok
    have hlt : start < dataLen := by simpa [bytesMoved] using hlt0
    rw [read_func_loop, dif_pos hlt, hok]
    have hrest : ∀ j < k,
        (start + (n + 1)) + bytesMoved stream (idx + 1) j < dataLen ∧
        ∃ m, stream ((idx + 1) + j) = .ok (m + 1) := by
      intro j hj
      obtain ⟨hlt2, m, hok2⟩ := hstep (j + 1) (by omega)
      rw [bytesMoved_succ_ok stream idx j (n + 1) hok] at hlt2
      refine ⟨by omega, m, ?_⟩
      rw [show idx + 1 + j = idx + (j + 1) by omega]
      exact hok2
    show read_func_loop stream dataLen (idx + 1) (start + (n + 1))
      = read_func_loop stream dataLen (idx + (k + 1))
          (start + bytesMoved stream idx (k + 1))
    rw [ih (idx + 1) (start + (n + 1)) hrest,
      bytesMoved_succ_ok stream idx k (n + 1) hok]
    congr 1 <;> omega

/-- Running the loop from its entry point (call 0, nothing moved) past a
productive prefix of `k` calls. -/
lemma read_func_loop_from_zero (stream : Nat → IoOutcome) (dataLen k : Nat)
    (H : ∀ j < k, bytesMoved stream 0 j < dataLen ∧
      ∃ n, stream j = .ok (n + 1)) :
    read_func_loop stream dataLen 0 0
      = read_func_loop stream dataLen k (bytesMoved stream 0 k) := by
  have := read_func_loop_run stream dataLen k 0 0 (by simpa using H)
  simpa using this

/-- `write_func` computes the same result as `read_func` on the same
transport answers (the two bodies are syntactically identical). -/
lemma write_func_eq_read_func (stream : Nat → IoOutcome) (conn : Connection)
    (dataLen : Nat) :
    write_func stream conn dataLen = read_func stream conn dataLen := by
  unfold write_func read_func
  rw [write_func_loop_eq_read_func_loop stream dataLen dataLen 0 0 (by omega)]

/-- After a productive prefix, a zero-length transfer at call `k` stops
the loop with the prefix's byte count and the closed-no-notify status,
capturing no error. -/
lemma read_func_stops_ok0 (stream : Nat → IoOutcome) (conn : Connection)
    (dataLen k : Nat)
    (H : ∀ j < k, bytesMoved stream 0 j < dataLen ∧
      ∃ n, stream j = .ok (n + 1))
    (h0 : stream k = .ok 0) (hlt : bytesMoved stream 0 k < dataLen) :
    read_func stream conn dataLen
      = (conn, bytesMoved stream 0 k, errSSLClosedNoNotify) := by
  unfold read_func
  rw [read_func_loop_from_zero stream dataLen k H, read_func_loop,
    dif_pos hlt, h0]

/-- After a productive prefix, a transport error at call `k` stops the
loop with the prefix's byte count, the translated status, and the
original error captured into `conn.err`. -/
lemma read_func_stops_err (stream : Nat → IoOutcome) (conn : Connection)
    (dataLen k : Nat) (e : TransportError)
    (H : ∀ j < k, bytesMoved stream 0 j < dataLen ∧
      ∃ n, stream j = .ok (n + 1))
    (he : stream k = .err e) (hlt : bytesMoved stream 0 k < dataLen) :
    read_func stream conn dataLen
      = (⟨some e⟩, bytesMoved stream 0 k, translate_err e) := by
  unfold read_func
  rw [read_func_loop_from_zero stream dataLen k H, read_func_loop,
    dif_pos hlt, he]

/-- After a productive prefix that fills the buffer, the loop stops with
all moved bytes and the success status, capturing no error. -/
lemma read_func_stops_full (stream : Nat → IoOutcome) (conn : Connection)
    (dataLen k : Nat)
    (H : ∀ j < k, bytesMoved stream 0 j < dataLen ∧
      ∃ n, stream j = .ok (n + 1))
    (hge : dataLen ≤ bytesMoved stream 0 k) :
    read_func stream conn dataLen
      = (conn, bytesMoved stream 0 k, errSecSuccess) := by
  unfold read_func
  rw [read_func_loop_from_zero stream dataLen k H, read_func_loop,
    dif_neg (by omega)]

/-- C4: after `k` productive transport calls (each a positive transfer,
each entered with the buffer not yet full), `read_func` and `write_func`
report exactly the bytes summed over that prefix, alongside the status
of the stopping call: a zero-length transfer at call `k` yields the
closed-no-notify status, a transport error the translated status with
the error captured, and a full buffer the success status — already-moved
bytes are reported in every case. -/
theorem bridge_reports_partial_progress (stream : Nat → IoOutcome)
    (conn : Connection) (dataLen k : Nat)
    (H : ∀ j < k, bytesMoved stream 0 j < dataLen ∧
      ∃ n, stream j = .ok (n + 1)) :
    ((stream k = .ok 0 → bytesMoved stream 0 k < dataLen →
        read_func stream conn dataLen
          = (conn, bytesMoved stream 0 k, errSSLClosedNoNotify) ∧
        write_func stream conn dataLen
          = (conn, bytesMoved stream 0 k, errSSLClosedNoNotify)) ∧
     (∀ e, stream k = .err e → bytesMoved stream 0 k < dataLen →
        read_func stream conn dataLen
          = (⟨some e⟩, bytesMoved stream 0 k, translate_err e) ∧
        write_func stream conn dataLen
          = (⟨some e⟩, bytesMoved stream 0 k, translate_err e)) ∧
     (dataLen ≤ bytesMoved stream 0 k →
        read_func stream conn dataLen
          = (conn, bytesMoved stream 0 k, errSecSuccess) ∧
        write_func stream conn dataLen
          = (conn, bytesMoved stream 0 k, errSecSuccess))) := by
  refine ⟨?_, ?_, ?_⟩
  · intro h0 hlt
    have hr := read_func_stops_ok0 stream conn dataLen k H h0 hlt
    exact ⟨hr, by rw [write_func_eq_read_func, hr]⟩
  · intro e he hlt
    have hr := read_func_stops_err stream conn dataLen k e H he hlt
    exact ⟨hr, by rw [write_func_eq_read_func, hr]⟩
  · intro hge
    have hr := read_func_stops_full stream conn dataLen k H hge
    exact ⟨hr, by rw [write_func_eq_read_func, hr]⟩

/-- Witness for C4: one positive transfer of 2 bytes, then a zero-length
transfer, into a 5-byte buffer: 2 bytes reported with the
closed-no-notify status. -/
theorem bridge_reports_partial_progress_witness :
    read_func (fun i => if i = 0 then IoOutcome.ok 2 else IoOutcome.ok 0)
      ⟨none⟩ 5 = (⟨none⟩, 2, errSSLClosedNoNotify) := by
  have H : ∀ j < 1,
      bytesMoved (fun i => if i = 0 then IoOutcome.ok 2 else IoOutcome.ok 0)
        0 j < 5 ∧
      ∃ n, (fun i => if i = 0 then IoOutcome.ok 2 else IoOutcome.ok 0) j
        = IoOutcome.ok (n + 1) := by
    intro j hj
    have hj0 : j = 0 := by omega
    subst hj0
    exact ⟨by simp [bytesMoved], 1, rfl⟩
  have h := (bridge_reports_partial_progress
      (fun i => if i = 0 then IoOutcome.ok 2 else IoOutcome.ok 0)
      ⟨none⟩ 5 1 H).1 (by norm_num) (by simp [bytesMoved])
  simpa [bytesMoved] using h.1

/-- C5: `translate_err` is the fixed coarse mapping — not-found ↦
closed-graceful, connection-reset ↦ closed-abrupt, would-block ↦
would-block, every other kind ↦ the generic I/O error code — and on a
transport error the bridge stores the original error value in the
connection, reporting the translated status for that same call. -/
theorem translate_err_fixed_mapping :
    ((∀ t, translate_err ⟨.NotFound, t⟩ = errSSLClosedGraceful) ∧
     (∀ t, translate_err ⟨.ConnectionReset, t⟩ = errSSLClosedAbort) ∧
     (∀ t, translate_err ⟨.WouldBlock, t⟩ = errSSLWouldBlock) ∧
     (∀ e : TransportError, e.kind ≠ .NotFound → e.kind ≠ .ConnectionReset →
        e.kind ≠ .WouldBlock → translate_err e = errSecIO) ∧
     (∀ stream conn dataLen k e,
        (∀ j < k, bytesMoved stream 0 j < dataLen ∧
          ∃ n, stream j = .ok (n + 1)) →
        stream k = .err e → bytesMoved stream 0 k < dataLen →
        (read_func stream conn dataLen).1 = ⟨some e⟩ ∧
        (read_func stream conn dataLen).2.2 = translate_err e ∧
        (write_func stream conn dataLen).1 = ⟨some e⟩ ∧
        (write_func stream conn dataLen).2.2 = translate_err e)) := by
  refine ⟨fun t => rfl, fun t => rfl, fun t => rfl, ?_, ?_⟩
  · intro e h1 h2 h3
    obtain ⟨k, t⟩ := e
    cases k <;> simp_all [translate_err]
  · intro stream conn dataLen k e H he hlt
    have hr := read_func_stops_err stream conn dataLen k e H he hlt
    have hw : write_func stream conn dataLen
        = (⟨some e⟩, bytesMoved stream 0 k, translate_err e) := by
      rw [write_func_eq_read_func, hr]
    exact ⟨by rw [hr], by rw [hr], by rw [hw], by rw [hw]⟩

/-- Witness for C5: the four mapping cases at concrete errors, and a
first-call timed-out error captured verbatim by `read_func`. -/
theorem translate_err_fixed_mapping_witness :
    translate_err ⟨.NotFound, 0⟩ = errSSLClosedGraceful ∧
    translate_err ⟨.TimedOut, 0⟩ = errSecIO ∧
    (read_func (fun _ => IoOutcome.err ⟨.TimedOut, 4⟩) ⟨none⟩ 3).1
      = ⟨some ⟨.TimedOut, 4⟩⟩ := by
  refine ⟨translate_err_fixed_mapping.1 0, ?_, ?_⟩
  · exact translate_err_fixed_mapping.2.2.2.1 ⟨.TimedOut, 0⟩
      (by decide) (by decide) (by decide)
  · exact (translate_err_fixed_mapping.2.2.2.2
      (fun _ => IoOutcome.err ⟨.TimedOut, 4⟩) ⟨none⟩ 3 0 ⟨.TimedOut, 4⟩
      (by intro j hj; omega) rfl (by simp [bytesMoved])).1

/-- `SecTrust`: an opaque owned trust-evaluation object (from the
`trust` module). -/
structure SecTrust where
  handle : Nat
deriving DecidableEq, Repr

/-- `SslContext::peer_trust` (lines 278–290): `stateResult` is the
result of `self.state()` (propagated by `try!`); on `Idle` the function
returns the bad-request error before touching the engine;
`copyPeerTrust` is the engine's answer to `SSLCopyPeerTrust`, consulted
only when that point is reached. -/
def SslContext.peer_trust (stateResult : Except SfError SessionState)
    (copyPeerTrust : Except SfError SecTrust) : Except SfError SecTrust :=
  match stateResult with
  | .error e => .error e
  | .ok SessionState.Idle => .error (SfError.new errSecBadReq)
  | .ok _ => copyPeerTrust

/-- C7: on an Idle session `peer_trust` fails with the fixed bad-request
error, and its result does not depend on the engine's trust-copy answer
(that call is never consulted); on a Connected session it returns the
owned trust object the engine produced. -/
theorem peer_trust_idle_bad_request
    (c c' : Except SfError SecTrust) (t : SecTrust) :
    (SslContext.peer_trust (.ok .Idle) c
        = .error (SfError.new errSecBadReq) ∧
     SslContext.peer_trust (.ok .Idle) c
        = SslContext.peer_trust (.ok .Idle) c' ∧
     SslContext.peer_trust (.ok .Connected) (.ok t) = .ok t) :=
  ⟨rfl, rfl, rfl⟩

/-- Resource events on the caller's transport across the lifecycle.
`boxConn` moves the transport into the heap-allocated `Connection` box
(`Box::into_raw`, line 321); `reclaimConn` reconstructs and drops that
box (`Box::from_raw`, lines 324 and 492); `dropTransport` is Rust
dropping the still-unboxed transport when `handshake` returns before
boxing (line 314); `sslCloseCall` is the close notification
(`SSLClose`, line 487). -/
inductive ResourceEvent where
  | boxConn
  | reclaimConn
  | dropTransport
  | sslCloseCall
deriving DecidableEq, Repr

/-- An event reclaims the transport: either the connection box is
reconstructed and dropped, or the unboxed transport is dropped. -/
def ResourceEvent.reclaims : ResourceEvent → Bool
  | .reclaimConn => true
  | .dropTransport => true
  | _ => false

/-- `<SslStream as Drop>::drop` (lines 484–495): the close notification
is sent first and its status `closeRet` is ignored, then the connection
box is reclaimed. -/
def sslStreamDropEvents (_closeRet : OSStatus) : List ResourceEvent :=
  [.sslCloseCall, .reclaimConn]

/-- Transport-resource events of a full handshake attempt
(lines 308–345) together with the eventual `SslStream` drop whenever an
`SslStream` was constructed — which covers the success path, the
suspended-then-abandoned path, and the step-failure path alike, since
each of those wraps or locally drops the same `SslStream`. -/
def handshakeLifecycleEvents (retSetIOFuncs retSetConnection closeRet :
    OSStatus) : List ResourceEvent :=
  if retSetIOFuncs ≠ errSecSuccess then [.dropTransport]
  else if retSetConnection ≠ errSecSuccess then [.boxConn, .reclaimConn]
  else .boxConn :: sslStreamDropEvents closeRet

/-- C8: on every lifecycle path — I/O-function binding failure,
connection-binding failure, and handshake-step success, suspension, or
failure followed by the stream's drop — the transport is reclaimed
exactly once; and on drop the close notification precedes reclamation
with its status ignored (the drop events are the same for every close
status). -/
theorem transport_reclaimed_exactly_once
    (retSetIOFuncs retSetConnection closeRet : OSStatus) :
    ((handshakeLifecycleEvents retSetIOFuncs retSetConnection
        closeRet).countP ResourceEvent.reclaims = 1 ∧
     sslStreamDropEvents closeRet
        = [.sslCloseCall, .reclaimConn]) := by
  refine ⟨?_, rfl⟩
  unfold handshakeLifecycleEvents sslStreamDropEvents
  by_cases h1 : retSetIOFuncs ≠ errSecSuccess
  · simp [h1, List.countP, List.countP.go, ResourceEvent.reclaims]
  · by_cases h2 : retSetConnection ≠ errSecSuccess <;>
      simp [h1, h2, List.countP, List.countP.go, ResourceEvent.reclaims]

/-- `errSecParam`: the engine's invalid-parameter status (used only by
the spec-modelled engine cipher store below). -/
def errSecParam : OSStatus := -50

/-- Modelled from the spec: `CipherSuite` (the repo's `cipher_suite.rs`
is not under `src/`) — cipher suites are "small enumerable codes";
`to_raw`/`from_raw` convert between the suite and the engine's raw code,
`from_raw` returning the suite designated by the code. -/
structure CipherSuite where
  code : Nat
deriving DecidableEq, Repr, Inhabited

/-- Modelled from the spec: `CipherSuite::to_raw`. -/
def CipherSuite.to_raw (c : CipherSuite) : Nat := c.code

/-- Modelled from the spec: `CipherSuite::from_raw`. -/
def CipherSuite.from_raw (raw : Nat) : Option CipherSuite := some ⟨raw⟩

/-- Modelled from the spec: the native engine's cipher store — an
ordered supported sequence and an ordered enabled sequence ("supported/
enabled ciphers: ordered sequences of cipher codes"). -/
structure EngineCipherState where
  supported : List Nat
  enabled : List Nat
deriving DecidableEq, Repr

/-- Modelled from the spec: `SSLSetEnabledCiphers` — "replaces the
enabled set; order is preserved and later observable via get", with
"enabled must be a subset of supported, engine-enforced". -/
def SSLSetEnabledCiphers (st : EngineCipherState) (raws : List Nat) :
    Except SfError EngineCipherState :=
  if raws.all st.supported.contains then .ok { st with enabled := raws }
  else .error (SfError.new errSecParam)

/-- Modelled from the spec: `SSLGetEnabledCiphers` returns the stored
enabled sequence. -/
def SSLGetEnabledCiphers (st : EngineCipherState) : List Nat :=
  st.enabled

/-- `SslContext::set_enabled_ciphers` (lines 236–239): marshals the
suites to raw codes and hands them to the engine. -/
def set_enabled_ciphers (st : EngineCipherState)
    (ciphers : List CipherSuite) : Except SfError EngineCipherState :=
  SSLSetEnabledCiphers st (ciphers.map CipherSuite.to_raw)

/-- `SslContext::enabled_ciphers` (lines 225–234): reads the raw codes
back from the engine and converts each with `from_raw(..).unwrap()`. -/
def enabled_ciphers (st : EngineCipherState) : List CipherSuite :=
  (SSLGetEnabledCiphers st).map (fun raw => (CipherSuite.from_raw raw).get!)

/-- `SslContext::supported_ciphers` (lines 214–223): the engine's
supported codes converted with `from_raw(..).unwrap()`. -/
def supported_ciphers (st : EngineCipherState) : List CipherSuite :=
  st.supported.map (fun raw => (CipherSuite.from_raw raw).get!)

/-- C9: for any cipher list `X` all of whose elements are supported,
`set_enabled_ciphers X` succeeds and a subsequent `enabled_ciphers`
returns exactly `X`, same elements, same order. -/
theorem cipher_round_trip (st : EngineCipherState) (X : List CipherSuite)
    (hsub : ∀ c ∈ X, c ∈ supported_ciphers st) :
    ∃ st', set_enabled_ciphers st X = .ok st' ∧ enabled_ciphers st' = X := by
  have hraw : ∀ c ∈ X, c.to_raw ∈ st.supported := by
    intro c hc
    obtain ⟨raw, hraw, hback⟩ := List.mem_map.1 (hsub c hc)
    simp [CipherSuite.from_raw, Option.get!] at hback
    subst hback
    exact hraw
  have hall : (X.map CipherSuite.to_raw).all st.supported.contains := by
    rw [List.all_eq_true]
    intro raw hmem
    obtain ⟨c, hc, hcraw⟩ := List.mem_map.1 hmem
    subst hcraw
    exact List.elem_iff.2 (hraw c hc)
  refine ⟨{ st with enabled := X.map CipherSuite.to_raw }, ?_, ?_⟩
  · unfold set_enabled_ciphers SSLSetEnabledCiphers
    rw [if_pos hall]
  · unfold enabled_ciphers SSLGetEnabledCiphers
    simp only [CipherSuite.from_raw, List.map_map, Option.get!]
    have hid : ((fun raw => (⟨raw⟩ : CipherSuite)) ∘ CipherSuite.to_raw)
        = id := by
      funext c
      rfl
    simp [hid]

/-- Witness for C9: a concrete subset in a different order survives the
round trip. -/
theorem cipher_round_trip_witness :
    ∃ st', set_enabled_ciphers ⟨[1, 2, 3], []⟩ [⟨3⟩, ⟨1⟩] = .ok st' ∧
      enabled_ciphers st' = [⟨3⟩, ⟨1⟩] :=
  cipher_round_trip ⟨[1, 2, 3], []⟩ [⟨3⟩, ⟨1⟩] (by decide)
